import Mathlib

/-!
Shallow embedding of the offline-first task sync backend
(`src/services/taskService.ts`, `src/services/syncService.ts`,
`src/routes/sync.ts`).

Timestamps are modelled as `Int` (JavaScript epoch milliseconds: the code
compares `new Date(x).getTime()` values).  Database tables are modelled as
lists of rows; each SQL statement of the source is translated to the
corresponding list operation.  Each awaited `db.run` is a separate
auto-committed statement in the source (there is no transaction), so a
rejected promise aborts the remainder of a method while earlier writes
persist; fallible writes are modelled by explicit failure parameters where
a claim depends on them.
-/

namespace TaskSync

inductive SyncStatus where
  | pending
  | synced
  | error
deriving Repr, DecidableEq

inductive Op where
  | create
  | update
  | delete
deriving Repr, DecidableEq

/-- The `data` column of `sync_queue`: a JSON snapshot of a `Partial<Task>`.
Only the fields the services actually write are modelled. -/
structure TaskData where
  id : Option String
  title : Option String
  description : Option String
  completed : Option Bool
  updated_at : Option Int
deriving Repr, DecidableEq

/-- A row of the `tasks` table (`Task` in `src/types`). -/
structure Task where
  id : String
  title : String
  description : Option String
  completed : Bool
  created_at : Int
  updated_at : Int
  is_deleted : Bool
  sync_status : SyncStatus
  server_id : Option String
  last_synced_at : Option Int
deriving Repr, DecidableEq

/-- A row of the `sync_queue` table (`SyncQueueItem` in `src/types`). -/
structure SyncQueueItem where
  id : String
  task_id : String
  operation : Op
  data : TaskData
  created_at : Int
  retry_count : Nat
  error_message : Option String
deriving Repr, DecidableEq

/-- The SQLite database: the two tables the services touch, each as a list of
rows in insertion order. -/
structure DBState where
  tasks : List Task
  sync_queue : List SyncQueueItem
deriving Repr, DecidableEq

/-- The fields a `PUT /tasks/:id` body may carry (`Partial<Task>` as consumed
by `updateTask`). -/
structure TaskUpdates where
  title : Option String
  description : Option String
  completed : Option Bool
deriving Repr, DecidableEq

inductive ItemStatus where
  | success
  | conflict
  | error
deriving Repr, DecidableEq

/-- One element of `BatchSyncResponse.processed_items`. -/
structure ProcessedItem where
  client_id : String
  status : ItemStatus
  server_id : Option String
  resolved_data : Option Task
  error : Option String
deriving Repr, DecidableEq

structure BatchSyncResponse where
  processed_items : List ProcessedItem
deriving Repr, DecidableEq

/-- One element of `SyncResult.errors`. -/
structure SyncError where
  task_id : String
  operation : Op
  error : String
  timestamp : Int
deriving Repr, DecidableEq

/-- The value returned by `SyncService.sync`. -/
structure SyncResult where
  success : Bool
  synced_items : Nat
  failed_items : Nat
  errors : List SyncError
deriving Repr, DecidableEq

/-- JavaScript `s || d` for a string `s`: the empty string is falsy. -/
def jsOrString (s d : String) : String :=
  if s = "" then d else s

/-- JavaScript `s || d` where `s` may be `undefined`. -/
def jsOrOpt (s : Option String) (d : String) : String :=
  match s with
  | none => d
  | some v => jsOrString v d

/-- SQL `COALESCE(a, b)`. -/
def coalesce (a b : Option String) : Option String :=
  match a with
  | some x => some x
  | none => b

namespace TaskService

/-- `TaskService.getTask`: `SELECT * FROM tasks WHERE id = ?`, then
`if (!row || row.is_deleted === 1) return null`. -/
def getTask (st : DBState) (idv : String) : Option Task :=
  match st.tasks.find? (fun t => t.id == idv) with
  | none => none
  | some row => if row.is_deleted then none else some row

/-- `TaskService.createTask`.  `idv` and `qid` stand for the two freshly
generated UUIDs and `now` for `new Date().toISOString()`.  The two INSERTs are
separate statements; `taskInsertFail` / `queueInsertFail` model a rejected
`db.run` promise (the thrown message), which aborts the rest of the method
while keeping the writes already committed. -/
def createTask (st : DBState) (idv qid : String) (now : Int)
    (title description : Option String) (completed : Option Bool)
    (taskInsertFail queueInsertFail : Option String) :
    Except String (Option Task) × DBState :=
  match title with
  | none => (Except.error "Title is required", st)
  | some t =>
    if t = "" then (Except.error "Title is required", st)
    else
      match taskInsertFail with
      | some e => (Except.error e, st)
      | none =>
        let newTask : Task :=
          { id := idv, title := t, description := description,
            completed := completed.getD false, created_at := now,
            updated_at := now, is_deleted := false,
            sync_status := SyncStatus.pending, server_id := none,
            last_synced_at := none }
        let st1 : DBState := { st with tasks := st.tasks ++ [newTask] }
        match queueInsertFail with
        | some e => (Except.error e, st1)
        | none =>
          let entry : SyncQueueItem :=
            { id := qid, task_id := idv, operation := Op.create,
              data := { id := some idv, title := some t,
                        description := description,
                        completed := some (completed.getD false),
                        updated_at := some now },
              created_at := now, retry_count := 0, error_message := none }
          let st2 : DBState := { st1 with sync_queue := st1.sync_queue ++ [entry] }
          (Except.ok (getTask st2 idv), st2)

/-- `TaskService.updateTask`.  The existence check is a raw
`SELECT * FROM tasks WHERE id = ?` — it does not look at `is_deleted`. -/
def updateTask (st : DBState) (idv : String) (updates : TaskUpdates)
    (qid : String) (now : Int) : Option Task × DBState :=
  match st.tasks.find? (fun t => t.id == idv) with
  | none => (none, st)
  | some existing =>
    let title := updates.title.getD existing.title
    let description :=
      match updates.description with
      | some d => some d
      | none => existing.description
    let completed :=
      match updates.completed with
      | some b => b
      | none => existing.completed
    let tasks' := st.tasks.map (fun t =>
      if t.id == idv then
        { t with title := title, description := description,
                 completed := completed, updated_at := now,
                 sync_status := SyncStatus.pending }
      else t)
    let entry : SyncQueueItem :=
      { id := qid, task_id := idv, operation := Op.update,
        data := { id := some idv, title := some title,
                  description := description, completed := some completed,
                  updated_at := some now },
        created_at := now, retry_count := 0, error_message := none }
    let st' : DBState := { tasks := tasks', sync_queue := st.sync_queue ++ [entry] }
    (getTask st' idv, st')

/-- `TaskService.deleteTask` (soft delete).  As in `updateTask`, the existence
check does not look at `is_deleted`. -/
def deleteTask (st : DBState) (idv qid : String) (now : Int) :
    Bool × DBState :=
  match st.tasks.find? (fun t => t.id == idv) with
  | none => (false, st)
  | some _ =>
    let tasks' := st.tasks.map (fun t =>
      if t.id == idv then
        { t with is_deleted := true, updated_at := now,
                 sync_status := SyncStatus.pending }
      else t)
    let entry : SyncQueueItem :=
      { id := qid, task_id := idv, operation := Op.delete,
        data := { id := some idv, title := none, description := none,
                  completed := none, updated_at := some now },
        created_at := now, retry_count := 0, error_message := none }
    (true, { tasks := tasks', sync_queue := st.sync_queue ++ [entry] })

end TaskService

namespace SyncService

/-- `SyncService.resolveConflict`: last-write-wins on `updated_at`,
`localUpdated >= serverUpdated` keeps the local record. -/
def resolveConflict (localTask serverTask : Task) : Task :=
  if localTask.updated_at ≥ serverTask.updated_at then localTask else serverTask

/-- The `status` argument of `updateSyncStatus` (`'synced' | 'error'`). -/
inductive UpdStatus where
  | synced
  | error
deriving Repr, DecidableEq

/-- `SyncService.updateSyncStatus`.  For `'synced'` it runs
`UPDATE tasks SET sync_status = 'synced', server_id = COALESCE(?, server_id),
last_synced_at = CURRENT_TIMESTAMP WHERE id = ?` followed by
`DELETE FROM sync_queue WHERE task_id = ?`; for `'error'` it only sets
`sync_status = 'error'` on the task. -/
def updateSyncStatus (st : DBState) (taskId : String) (status : UpdStatus)
    (serverId : Option String) (now : Int) : DBState :=
  match status with
  | UpdStatus.synced =>
    { tasks := st.tasks.map (fun t =>
        if t.id == taskId then
          { t with sync_status := SyncStatus.synced,
                   server_id := coalesce serverId t.server_id,
                   last_synced_at := some now }
        else t),
      sync_queue := st.sync_queue.filter (fun q => !(q.task_id == taskId)) }
  | UpdStatus.error =>
    { tasks := st.tasks.map (fun t =>
        if t.id == taskId then { t with sync_status := SyncStatus.error } else t),
      sync_queue := st.sync_queue }

/-- `SyncService.handleSyncError`: bump `retry_count` (from the in-memory
item), store the error message on the queue row, and after the third failure
mark the task `error`. -/
def handleSyncError (st : DBState) (item : SyncQueueItem) (emsg : String)
    (now : Int) : DBState :=
  let newCount := item.retry_count + 1
  let st1 : DBState :=
    { st with sync_queue := st.sync_queue.map (fun q =>
        if q.id == item.id then
          { q with retry_count := newCount, error_message := some emsg }
        else q) }
  if newCount ≥ 3 then updateSyncStatus st1 item.task_id UpdStatus.error none now
  else st1

/-- The message of the `TypeError` thrown when the conflict branch
dereferences a `null` local task (`getTask` returned `null` and the result was
cast to `Task`). -/
def nullDerefMsg : String :=
  "Cannot read properties of null (reading updated_at)"

/-- Persist the winner of a conflict:
`UPDATE tasks SET title = ?, description = ?, completed = ?, updated_at = ?,
sync_status = 'synced', server_id = ?, last_synced_at = CURRENT_TIMESTAMP
WHERE id = ?` followed by `DELETE FROM sync_queue WHERE task_id = ?`,
keyed by `resolved.id` and assigning `server_id` directly (no COALESCE). -/
def persistResolved (st : DBState) (resolved : Task) (serverId : Option String)
    (now : Int) : DBState :=
  { tasks := st.tasks.map (fun t =>
      if t.id == resolved.id then
        { t with title := resolved.title, description := resolved.description,
                 completed := resolved.completed,
                 updated_at := resolved.updated_at,
                 sync_status := SyncStatus.synced, server_id := serverId,
                 last_synced_at := some now }
      else t),
    sync_queue := st.sync_queue.filter (fun q => !(q.task_id == resolved.id)) }

/-- The inner loop of `sync` over `resp.processed_items` for one batch.
Returns the database, the `synced` and `failed` increments, the error records
pushed, and `some msg` when an exception escaped the loop (the null-task
`TypeError` of the conflict branch), in which case the remaining items are not
processed and the caller's `catch` takes over. -/
def applyItems (st : DBState) (batch : List SyncQueueItem)
    (ps : List ProcessedItem) (now : Int) :
    DBState × Nat × Nat × List SyncError × Option String :=
  match ps with
  | [] => (st, 0, 0, [], none)
  | p :: rest =>
    match batch.find? (fun b => b.task_id == p.client_id) with
    | none => applyItems st batch rest now
    | some original =>
      match p.status with
      | ItemStatus.success =>
        let st' := updateSyncStatus st original.task_id UpdStatus.synced
          p.server_id now
        let r := applyItems st' batch rest now
        (r.1, r.2.1 + 1, r.2.2.1, r.2.2.2.1, r.2.2.2.2)
      | ItemStatus.conflict =>
        match p.resolved_data with
        | some serverTask =>
          match TaskService.getTask st original.task_id with
          | none => (st, 0, 0, [], some nullDerefMsg)
          | some localTask =>
            let resolved := resolveConflict localTask serverTask
            let st' := persistResolved st resolved p.server_id now
            let r := applyItems st' batch rest now
            (r.1, r.2.1 + 1, r.2.2.1, r.2.2.2.1, r.2.2.2.2)
        | none =>
          let st' := handleSyncError st original
            "Conflict without resolution data" now
          let r := applyItems st' batch rest now
          (r.1, r.2.1, r.2.2.1 + 1,
           { task_id := original.task_id, operation := original.operation,
             error := "Conflict without resolution data",
             timestamp := now } :: r.2.2.2.1, r.2.2.2.2)
      | ItemStatus.error =>
        let emsg := jsOrOpt p.error "Unknown error"
        let st' := handleSyncError st original emsg now
        let r := applyItems st' batch rest now
        (r.1, r.2.1, r.2.2.1 + 1,
         { task_id := original.task_id, operation := original.operation,
           error := emsg, timestamp := now } :: r.2.2.2.1, r.2.2.2.2)

/-- The `catch` block of `sync`: every item of the failed batch is recorded as
a per-item failure with the batch-level message (`handleSyncError` stores the
raw message, the error record uses `err?.message || 'Batch failed'`). -/
def failBatch (st : DBState) (batch : List SyncQueueItem) (emsg : String)
    (now : Int) : DBState × Nat × List SyncError :=
  match batch with
  | [] => (st, 0, [])
  | item :: rest =>
    let st' := handleSyncError st item emsg now
    let r := failBatch st' rest emsg now
    (r.1, r.2.1 + 1,
     { task_id := item.task_id, operation := item.operation,
       error := jsOrString emsg "Batch failed", timestamp := now } :: r.2.2)

/-- The outer loop of `sync` over the batches.  `net` models
`processBatch` (the `axios.post` to `/batch`): `Except.error e` is a rejected
promise with message `e`.  A batch whose transmission or item processing threw
falls into the `catch` block and the loop continues with the next batch. -/
def syncLoop (st : DBState) (batches : List (List SyncQueueItem))
    (net : List SyncQueueItem → Except String BatchSyncResponse) (now : Int) :
    DBState × Nat × Nat × List SyncError :=
  match batches with
  | [] => (st, 0, 0, [])
  | b :: rest =>
    match net b with
    | Except.error e =>
      let f := failBatch st b e now
      let r := syncLoop f.1 rest net now
      (r.1, r.2.1, f.2.1 + r.2.2.1, f.2.2 ++ r.2.2.2)
    | Except.ok resp =>
      let a := applyItems st b resp.processed_items now
      match a.2.2.2.2 with
      | some e =>
        let f := failBatch a.1 b e now
        let r := syncLoop f.1 rest net now
        (r.1, a.2.1 + r.2.1, a.2.2.1 + f.2.1 + r.2.2.1,
         a.2.2.2.1 ++ f.2.2 ++ r.2.2.2)
      | none =>
        let r := syncLoop a.1 rest net now
        (r.1, a.2.1 + r.2.1, a.2.2.1 + r.2.2.1, a.2.2.2.1 ++ r.2.2.2)

/-- `SELECT * FROM sync_queue ORDER BY created_at ASC`, as a stable sort of
the table rows on `created_at`. -/
def drainQueue (q : List SyncQueueItem) : List SyncQueueItem :=
  q.insertionSort (fun a b => a.created_at ≤ b.created_at)

/-- The batching loop
`for (let i = 0; i < items.length; i += batchSize) items.slice(i, i + batchSize)`. -/
def chunkList (l : List SyncQueueItem) (n : Nat) : List (List SyncQueueItem) :=
  if _h : n = 0 then []
  else match l with
    | [] => []
    | x :: xs => (x :: xs).take n :: chunkList ((x :: xs).drop n) n
termination_by l.length
decreasing_by
  simp only [List.length_drop, List.length_cons]
  omega

/-- The consecutive batches a sync run transmits: the queue in `created_at`
order, partitioned into groups of at most `batchSize`. -/
def syncBatchPlan (q : List SyncQueueItem) (batchSize : Nat) :
    List (List SyncQueueItem) :=
  chunkList (drainQueue q) batchSize

/-- `SyncService.sync`.  `batchSize` models
`parseInt(process.env.SYNC_BATCH_SIZE || '50', 10)` (default 50), `net` the
remote batch endpoint, `now` the clock. -/
def sync (st : DBState) (batchSize : Nat)
    (net : List SyncQueueItem → Except String BatchSyncResponse) (now : Int) :
    SyncResult × DBState :=
  let r := syncLoop st (syncBatchPlan st.sync_queue batchSize) net now
  ({ success := r.2.2.1 == 0, synced_items := r.2.1, failed_items := r.2.2.1,
     errors := r.2.2.2 }, r.1)

end SyncService

namespace Routes

/-- The outcome of `POST /sync` in `src/routes/sync.ts`: HTTP 503
`{error: 'Server unreachable'}`, HTTP 200 with the `SyncResult`, or HTTP 500. -/
inductive SyncRouteResponse where
  | unreachable
  | ok (r : SyncResult)
deriving Repr, DecidableEq

/-- The local `POST /batch` stub route: always responds HTTP 200 with
`{ processed_items: [] }`. -/
def batchStub : List SyncQueueItem → Except String BatchSyncResponse :=
  fun _ => Except.ok { processed_items := [] }

/-- The `POST /sync` handler: probe connectivity
(`checkConnectivity`, modelled by the boolean `online`: the `axios.get` of
`/health` succeeded within its timeout); if offline respond 503 and return
without touching the database, otherwise run `sync`. -/
def postSync (st : DBState) (online : Bool) (batchSize : Nat)
    (net : List SyncQueueItem → Except String BatchSyncResponse) (now : Int) :
    SyncRouteResponse × DBState :=
  if online then
    let r := SyncService.sync st batchSize net now
    (SyncRouteResponse.ok r.1, r.2)
  else (SyncRouteResponse.unreachable, st)

end Routes

/-! Concrete fixtures used by witnesses and counterexamples. -/

def dbEmpty : DBState := { tasks := [], sync_queue := [] }

def taskA : Task :=
  { id := "t1", title := "Buy milk", description := none, completed := false,
    created_at := 0, updated_at := 10, is_deleted := false,
    sync_status := SyncStatus.pending, server_id := none,
    last_synced_at := none }

def entryA : SyncQueueItem :=
  { id := "q1", task_id := "t1", operation := Op.create,
    data := { id := some "t1", title := some "Buy milk", description := none,
              completed := some false, updated_at := some 10 },
    created_at := 1, retry_count := 0, error_message := none }

def entryB : SyncQueueItem :=
  { id := "q2", task_id := "t1", operation := Op.update,
    data := { id := some "t1", title := some "Buy oat milk",
              description := none, completed := some false,
              updated_at := some 10 },
    created_at := 2, retry_count := 0, error_message := none }

def stA : DBState := { tasks := [taskA], sync_queue := [entryA, entryB] }

def stDeleted : DBState :=
  { tasks := [{ taskA with is_deleted := true }], sync_queue := [] }

def successItemA : ProcessedItem :=
  { client_id := "t1", status := ItemStatus.success, server_id := some "srv-1",
    resolved_data := none, error := none }

/-- The in-memory image of `entryA` on its third consecutive failure. -/
def entryR2 : SyncQueueItem := { entryA with retry_count := 2 }

/-- A 120-entry queue for the batching scenario. -/
def queue120 : List SyncQueueItem :=
  (List.range 120).map (fun i =>
    { id := toString i, task_id := toString i, operation := Op.create,
      data := { id := none, title := none, description := none,
                completed := none, updated_at := none },
      created_at := Int.ofNat i, retry_count := 0, error_message := none })

/-! Helper lemmas about the batching loop. -/

/-- The lengths of the successive batches depend only on the queue length. -/
def lengthChunks (m n : Nat) : List Nat :=
  if _h : n = 0 then []
  else if _h2 : m = 0 then []
  else min n m :: lengthChunks (m - n) n
termination_by m
decreasing_by omega

theorem chunkList_flatten (n : Nat) (hn : n ≠ 0) :
    ∀ (k : Nat) (l : List SyncQueueItem), l.length ≤ k →
      (SyncService.chunkList l n).flatten = l := by
  intro k
  induction k with
  | zero =>
    intro l hl
    cases l with
    | nil => rw [SyncService.chunkList]; simp [hn]
    | cons x xs => simp at hl
  | succ k ih =>
    intro l hl
    cases l with
    | nil => rw [SyncService.chunkList]; simp [hn]
    | cons x xs =>
      rw [SyncService.chunkList, dif_neg hn]
      have hdrop : ((x :: xs).drop n).length ≤ k := by
        rw [List.length_drop]
        simp only [List.length_cons] at hl ⊢
        omega
      rw [List.flatten_cons, ih _ hdrop]
      exact List.take_append_drop n (x :: xs)

theorem chunkList_length_le (n : Nat) (hn : n ≠ 0) :
    ∀ (k : Nat) (l : List SyncQueueItem), l.length ≤ k →
      ∀ b ∈ SyncService.chunkList l n, b.length ≤ n := by
  intro k
  induction k with
  | zero =>
    intro l hl b hb
    cases l with
    | nil => rw [SyncService.chunkList] at hb; simp [hn] at hb
    | cons x xs => simp at hl
  | succ k ih =>
    intro l hl b hb
    cases l with
    | nil => rw [SyncService.chunkList] at hb; simp [hn] at hb
    | cons x xs =>
      rw [SyncService.chunkList, dif_neg hn] at hb
      rcases List.mem_cons.1 hb with h | h
      · subst h
        rw [List.length_take]
        exact min_le_left _ _
      · have hdrop : ((x :: xs).drop n).length ≤ k := by
          rw [List.length_drop]
          simp only [List.length_cons] at hl ⊢
          omega
        exact ih _ hdrop b h

theorem chunkList_map_length (n : Nat) (hn : n ≠ 0) :
    ∀ (k : Nat) (l : List SyncQueueItem), l.length ≤ k →
      (SyncService.chunkList l n).map List.length = lengthChunks l.length n := by
  intro k
  induction k with
  | zero =>
    intro l hl
    cases l with
    | nil =>
      rw [SyncService.chunkList, lengthChunks]
      simp [hn]
    | cons x xs => simp at hl
  | succ k ih =>
    intro l hl
    cases l with
    | nil =>
      rw [SyncService.chunkList, lengthChunks]
      simp [hn]
    | cons x xs =>
      rw [SyncService.chunkList, dif_neg hn, lengthChunks, dif_neg hn]
      have hdrop : ((x :: xs).drop n).length ≤ k := by
        rw [List.length_drop]
        simp only [List.length_cons] at hl ⊢
        omega
      rw [dif_neg (by simp)]
      simp only [List.map_cons, List.length_take, ih _ hdrop, List.length_drop]

theorem failBatch_spec (st : DBState) (batch : List SyncQueueItem)
    (emsg : String) (now : Int) :
    (SyncService.failBatch st batch emsg now).2.1 = batch.length
  ∧ (SyncService.failBatch st batch emsg now).2.2 = batch.map (fun item =>
      { task_id := item.task_id, operation := item.operation,
        error := jsOrString emsg "Batch failed", timestamp := now }) := by
  induction batch generalizing st with
  | nil => exact ⟨rfl, rfl⟩
  | cons x xs ih =>
    have h := ih (SyncService.handleSyncError st x emsg now)
    refine ⟨?_, ?_⟩
    · simp only [SyncService.failBatch, List.length_cons, h.1]
    · simp only [SyncService.failBatch, List.map_cons, h.2]

theorem applyItems_failed_errors (batch : List SyncQueueItem)
    (ps : List ProcessedItem) (now : Int) :
    ∀ st : DBState,
      (SyncService.applyItems st batch ps now).2.2.1
        = (SyncService.applyItems st batch ps now).2.2.2.1.length := by
  induction ps with
  | nil => intro st; rfl
  | cons p rest ih =>
    intro st
    cases hf : batch.find? (fun b => b.task_id == p.client_id) with
    | none =>
      simp only [SyncService.applyItems, hf]
      exact ih st
    | some original =>
      cases hs : p.status with
      | success =>
        simp only [SyncService.applyItems, hf, hs]
        simpa using ih _
      | conflict =>
        cases hr : p.resolved_data with
        | some serverTask =>
          cases hg : TaskService.getTask st original.task_id with
          | none => simp [SyncService.applyItems, hf, hs, hr, hg]
          | some localTask =>
            simp only [SyncService.applyItems, hf, hs, hr, hg]
            simpa using ih _
        | none =>
          simp only [SyncService.applyItems, hf, hs, hr]
          simpa using ih _
      | error =>
        simp only [SyncService.applyItems, hf, hs]
        simpa using ih _

theorem syncLoop_failed_errors (batches : List (List SyncQueueItem))
    (net : List SyncQueueItem → Except String BatchSyncResponse) (now : Int) :
    ∀ st : DBState,
      (SyncService.syncLoop st batches net now).2.2.1
        = (SyncService.syncLoop st batches net now).2.2.2.length := by
  induction batches with
  | nil => intro st; rfl
  | cons b rest ih =>
    intro st
    simp only [SyncService.syncLoop]
    cases hn : net b with
    | error e =>
      have hf := failBatch_spec st b e now
      have hlen : (SyncService.failBatch st b e now).2.2.length = b.length := by
        rw [hf.2, List.length_map]
      simp only [List.length_append, hlen, hf.1, ih _]
    | ok resp =>
      have ha := applyItems_failed_errors b resp.processed_items now st
      cases ht : (SyncService.applyItems st b resp.processed_items now).2.2.2.2 with
      | some e =>
        have hf := failBatch_spec
          (SyncService.applyItems st b resp.processed_items now).1 b e now
        have hlen : (SyncService.failBatch
            (SyncService.applyItems st b resp.processed_items now).1 b e
            now).2.2.length = b.length := by
          rw [hf.2, List.length_map]
        simp only [ht, List.length_append, hlen, hf.1, ih _, ha]
      | none => simp only [ht, List.length_append, ih _, ha]

theorem syncLoop_batchStub (batches : List (List SyncQueueItem)) (now : Int) :
    ∀ st : DBState,
      SyncService.syncLoop st batches Routes.batchStub now = (st, 0, 0, []) := by
  induction batches with
  | nil => intro st; rfl
  | cons b rest ih =>
    intro st
    simp [SyncService.syncLoop, Routes.batchStub, SyncService.applyItems, ih st]

instance : IsTotal SyncQueueItem (fun a b => a.created_at ≤ b.created_at) :=
  ⟨fun a b => le_total a.created_at b.created_at⟩

instance : IsTrans SyncQueueItem (fun a b => a.created_at ≤ b.created_at) :=
  ⟨fun _ _ _ hab hbc => le_trans hab hbc⟩

/-- C1: for every pair of tasks, the conflict resolver returns the local task
when `local.updated_at >= remote.updated_at` and the remote task otherwise
(ties favor local); it returns one of its two arguments unchanged, with no
field-level merging and no side effects (it is a pure function of its
arguments). -/
theorem resolveConflict_lww (l r : Task) :
    (l.updated_at ≥ r.updated_at → SyncService.resolveConflict l r = l)
  ∧ (l.updated_at < r.updated_at → SyncService.resolveConflict l r = r)
  ∧ (SyncService.resolveConflict l r = l ∨ SyncService.resolveConflict l r = r) := by
  refine ⟨fun h => ?_, fun h => ?_, ?_⟩
  · simp [SyncService.resolveConflict, h]
  · simp [SyncService.resolveConflict, not_le.mpr h]
  · by_cases h : l.updated_at ≥ r.updated_at <;>
      simp [SyncService.resolveConflict, h]

/-- Witness for C1: on an exact timestamp tie the local task is returned. -/
theorem resolveConflict_lww_witness :
    SyncService.resolveConflict taskA { taskA with id := "t2" } = taskA :=
  (resolveConflict_lww taskA { taskA with id := "t2" }).1 (le_refl _)

/-- C4: evaluation at the failing input.  `createTask` issues the task INSERT
and the queue INSERT as two separate auto-committed statements with no
transaction, so when the `sync_queue` INSERT fails the call rejects but the
task row stays committed (`sync_status = pending`) with no queue entry —
the mutation is not atomic as claimed. -/
theorem createTask_not_atomic :
    (TaskService.createTask dbEmpty "t9" "q9" 0 (some "Buy milk") none none
        none (some "SQLITE_BUSY")).1 = Except.error "SQLITE_BUSY"
  ∧ (TaskService.createTask dbEmpty "t9" "q9" 0 (some "Buy milk") none none
        none (some "SQLITE_BUSY")).2.tasks.map Task.id = ["t9"]
  ∧ (TaskService.createTask dbEmpty "t9" "q9" 0 (some "Buy milk") none none
        none (some "SQLITE_BUSY")).2.tasks.map Task.sync_status
        = [SyncStatus.pending]
  ∧ (TaskService.createTask dbEmpty "t9" "q9" 0 (some "Buy milk") none none
        none (some "SQLITE_BUSY")).2.sync_queue = [] :=
  ⟨rfl, rfl, rfl, rfl⟩

/-- C2: a per-item `success` outcome matched to queue entry `original` makes
the engine apply `updateSyncStatus(original.task_id, 'synced', server_id)` and
count one synced item; that update marks the referenced task
`sync_status = synced`, sets `last_synced_at`, attaches the provided
`server_id`, and removes every sync-queue entry whose `task_id` is the task's,
not only the processed entry. -/
theorem sync_success_outcome (st : DBState) (batch : List SyncQueueItem)
    (p : ProcessedItem) (rest : List ProcessedItem) (now : Int)
    (original : SyncQueueItem)
    (hfind : batch.find? (fun b => b.task_id == p.client_id) = some original)
    (hs : p.status = ItemStatus.success) :
    (SyncService.applyItems st batch (p :: rest) now =
      (let st' := SyncService.updateSyncStatus st original.task_id
          SyncService.UpdStatus.synced p.server_id now
       let r := SyncService.applyItems st' batch rest now
       (r.1, r.2.1 + 1, r.2.2.1, r.2.2.2.1, r.2.2.2.2)))
  ∧ (∀ t ∈ (SyncService.updateSyncStatus st original.task_id
        SyncService.UpdStatus.synced p.server_id now).tasks,
       t.id = original.task_id →
         t.sync_status = SyncStatus.synced ∧ t.last_synced_at = some now ∧
         ∀ sid, p.server_id = some sid → t.server_id = some sid)
  ∧ (∀ q ∈ (SyncService.updateSyncStatus st original.task_id
        SyncService.UpdStatus.synced p.server_id now).sync_queue,
       ¬ q.task_id = original.task_id) := by
  refine ⟨?_, ?_, ?_⟩
  · simp only [SyncService.applyItems, hfind, hs]
  · intro t ht hid
    simp only [SyncService.updateSyncStatus] at ht
    rcases List.mem_map.1 ht with ⟨u, _hu, rfl⟩
    by_cases h : u.id = original.task_id
    · refine ⟨?_, ?_, ?_⟩
      · simp [h]
      · simp [h]
      · intro sid hsid
        simp [h, coalesce, hsid]
    · have hb : (u.id == original.task_id) = false := beq_eq_false_iff_ne.2 h
      rw [hb] at hid
      simp only [Bool.false_eq_true, if_false] at hid
      exact absurd hid h
  · intro q hq
    simp only [SyncService.updateSyncStatus] at hq
    have := (List.mem_filter.1 hq).2
    simpa using this

/-- Witness for C2: applying the success outcome for task `t1` in a state
with two queue entries for `t1` removes both entries and marks the task
synced with the server id and `last_synced_at`. -/
theorem sync_success_outcome_witness :
    (SyncService.applyItems stA [entryA, entryB] [successItemA] 99 =
      (let st' := SyncService.updateSyncStatus stA entryA.task_id
          SyncService.UpdStatus.synced successItemA.server_id 99
       let r := SyncService.applyItems st' [entryA, entryB] [] 99
       (r.1, r.2.1 + 1, r.2.2.1, r.2.2.2.1, r.2.2.2.2)))
  ∧ (∀ t ∈ (SyncService.updateSyncStatus stA entryA.task_id
        SyncService.UpdStatus.synced successItemA.server_id 99).tasks,
       t.id = entryA.task_id →
         t.sync_status = SyncStatus.synced ∧ t.last_synced_at = some 99 ∧
         ∀ sid, successItemA.server_id = some sid → t.server_id = some sid)
  ∧ (∀ q ∈ (SyncService.updateSyncStatus stA entryA.task_id
        SyncService.UpdStatus.synced successItemA.server_id 99).sync_queue,
       ¬ q.task_id = entryA.task_id) :=
  sync_success_outcome stA [entryA, entryB] successItemA [] 99 entryA rfl rfl

/-- C3: `handleSyncError` (used for remote-reported errors, conflicts without
resolution data, and batch-level failures) stores `retry_count + 1` and the
error message on the entry, removes nothing from the queue, marks the task
`sync_status = error` once the new count reaches 3, and leaves the task table
untouched below 3. -/
theorem handleSyncError_bookkeeping (st : DBState) (item : SyncQueueItem)
    (emsg : String) (now : Int) :
    ((SyncService.handleSyncError st item emsg now).sync_queue.length
        = st.sync_queue.length)
  ∧ (∀ q ∈ (SyncService.handleSyncError st item emsg now).sync_queue,
        q.id = item.id →
          q.retry_count = item.retry_count + 1 ∧ q.error_message = some emsg)
  ∧ (item.retry_count + 1 ≥ 3 →
        ∀ t ∈ (SyncService.handleSyncError st item emsg now).tasks,
          t.id = item.task_id → t.sync_status = SyncStatus.error)
  ∧ (item.retry_count + 1 < 3 →
        (SyncService.handleSyncError st item emsg now).tasks = st.tasks) := by
  refine ⟨?_, ?_, ?_, ?_⟩
  · by_cases h : item.retry_count + 1 ≥ 3 <;>
      simp [SyncService.handleSyncError, SyncService.updateSyncStatus, h]
  · intro q hq hid
    have hq' : q ∈ st.sync_queue.map (fun u =>
        if u.id == item.id then
          { u with retry_count := item.retry_count + 1,
                   error_message := some emsg }
        else u) := by
      by_cases h : item.retry_count + 1 ≥ 3 <;>
        simpa [SyncService.handleSyncError, SyncService.updateSyncStatus, h]
          using hq
    rcases List.mem_map.1 hq' with ⟨u, _hu, rfl⟩
    by_cases hb : u.id = item.id
    · refine ⟨?_, ?_⟩ <;> simp [hb]
    · have hbf : (u.id == item.id) = false := beq_eq_false_iff_ne.2 hb
      rw [hbf] at hid
      simp only [Bool.false_eq_true, if_false] at hid
      exact absurd hid hb
  · intro h3 t ht hid
    simp only [SyncService.handleSyncError, SyncService.updateSyncStatus,
      if_pos h3] at ht
    rcases List.mem_map.1 ht with ⟨u, _hu, rfl⟩
    by_cases hb : u.id = item.task_id
    · simp [hb]
    · have hbf : (u.id == item.task_id) = false := beq_eq_false_iff_ne.2 hb
      rw [hbf] at hid
      simp only [Bool.false_eq_true, if_false] at hid
      exact absurd hid hb
  · intro hlt
    have h3 : ¬ item.retry_count + 1 ≥ 3 := by omega
    simp [SyncService.handleSyncError, h3]

/-- Witness for C3: a third consecutive failure of entry `q1` (in-memory
retry count 2) bumps the stored count to 3, stores the message, removes no
entry, and marks task `t1` with `sync_status = error`. -/
theorem handleSyncError_bookkeeping_witness :
    ((SyncService.handleSyncError stA entryR2 "boom" 7).sync_queue.length
        = stA.sync_queue.length)
  ∧ (∀ q ∈ (SyncService.handleSyncError stA entryR2 "boom" 7).sync_queue,
        q.id = entryR2.id →
          q.retry_count = entryR2.retry_count + 1
          ∧ q.error_message = some "boom")
  ∧ (entryR2.retry_count + 1 ≥ 3 →
        ∀ t ∈ (SyncService.handleSyncError stA entryR2 "boom" 7).tasks,
          t.id = entryR2.task_id → t.sync_status = SyncStatus.error)
  ∧ (entryR2.retry_count + 1 < 3 →
        (SyncService.handleSyncError stA entryR2 "boom" 7).tasks = stA.tasks) :=
  handleSyncError_bookkeeping stA entryR2 "boom" 7

/-- C6: a sync run reads the queue ordered by `created_at` (oldest first, a
permutation of the stored queue) and partitions it into consecutive batches of
at most the batch size 50 whose concatenation is exactly the ordered queue;
each batch is one transmission of the sequential loop, and a queue of 120
entries yields exactly the three batches of sizes 50, 50 and 20. -/
theorem sync_batching (q : List SyncQueueItem) :
    (SyncService.syncBatchPlan q 50).flatten = SyncService.drainQueue q
  ∧ List.Sorted (fun a b => a.created_at ≤ b.created_at)
      (SyncService.drainQueue q)
  ∧ (SyncService.drainQueue q).Perm q
  ∧ (∀ b ∈ SyncService.syncBatchPlan q 50, b.length ≤ 50)
  ∧ (q.length = 120 →
      (SyncService.syncBatchPlan q 50).map List.length = [50, 50, 20]) := by
  refine ⟨?_, ?_, ?_, ?_, ?_⟩
  · exact chunkList_flatten 50 (by omega) _ _ le_rfl
  · exact List.sorted_insertionSort _ q
  · exact List.perm_insertionSort _ q
  · exact chunkList_length_le 50 (by omega) _ _ le_rfl
  · intro h120
    have hlen : (SyncService.drainQueue q).length = 120 := by
      rw [SyncService.drainQueue, List.length_insertionSort]
      exact h120
    rw [SyncService.syncBatchPlan,
      chunkList_map_length 50 (by omega) _ _ le_rfl, hlen]
    have e0 : lengthChunks 0 50 = [] := by
      rw [lengthChunks]; norm_num
    have e20 : lengthChunks 20 50 = [20] := by
      rw [lengthChunks]; norm_num [e0]
    have e70 : lengthChunks 70 50 = [50, 20] := by
      rw [lengthChunks]; norm_num [e20]
    rw [lengthChunks]; norm_num [e70]

/-- Witness for C6: a concrete queue of 120 entries is transmitted as exactly
three batches of sizes 50, 50 and 20. -/
theorem sync_batching_witness :
    (SyncService.syncBatchPlan queue120 50).map List.length = [50, 50, 20] :=
  (sync_batching queue120).2.2.2.2
    (by simp only [queue120, List.length_map, List.length_range])

/-- C7: when a batch transmission fails as a whole, every item of that batch
becomes a per-item failure carrying the batch-level error message (one
`{task_id, operation, error, timestamp}` record per item), the loop goes on
with the remaining batches, and every sync run's summary satisfies
`success = (failed == 0)` with exactly one error record per counted
failure. -/
theorem sync_batch_level_failure (st : DBState) (b : List SyncQueueItem)
    (rest : List (List SyncQueueItem))
    (net : List SyncQueueItem → Except String BatchSyncResponse) (now : Int)
    (e : String) (hnet : net b = Except.error e) :
    ((SyncService.failBatch st b e now).2.1 = b.length)
  ∧ ((SyncService.failBatch st b e now).2.2 = b.map (fun item =>
      { task_id := item.task_id, operation := item.operation,
        error := jsOrString e "Batch failed", timestamp := now }))
  ∧ (SyncService.syncLoop st (b :: rest) net now =
      (let f := SyncService.failBatch st b e now
       let r := SyncService.syncLoop f.1 rest net now
       (r.1, r.2.1, f.2.1 + r.2.2.1, f.2.2 ++ r.2.2.2)))
  ∧ (∀ (st2 : DBState) (bs : Nat)
       (net2 : List SyncQueueItem → Except String BatchSyncResponse)
       (now2 : Int),
      ((SyncService.sync st2 bs net2 now2).1.success
          = ((SyncService.sync st2 bs net2 now2).1.failed_items == 0))
      ∧ (SyncService.sync st2 bs net2 now2).1.errors.length
          = (SyncService.sync st2 bs net2 now2).1.failed_items) := by
  refine ⟨(failBatch_spec st b e now).1, (failBatch_spec st b e now).2, ?_, ?_⟩
  · simp only [SyncService.syncLoop, hnet]
  · intro st2 bs net2 now2
    refine ⟨rfl, ?_⟩
    simp only [SyncService.sync]
    exact (syncLoop_failed_errors _ net2 now2 st2).symm

/-- A network that always rejects the batch request. -/
def failNet : List SyncQueueItem → Except String BatchSyncResponse :=
  fun _ => Except.error "ECONNREFUSED"

/-- Witness for C7: a two-entry batch whose transmission is refused yields two
failure records carrying the transport message, and the loop equation and
summary laws hold at these inputs. -/
theorem sync_batch_level_failure_witness :
    ((SyncService.failBatch stA [entryA, entryB] "ECONNREFUSED" 99).2.1
        = [entryA, entryB].length)
  ∧ ((SyncService.failBatch stA [entryA, entryB] "ECONNREFUSED" 99).2.2
        = [entryA, entryB].map (fun item =>
      { task_id := item.task_id, operation := item.operation,
        error := jsOrString "ECONNREFUSED" "Batch failed", timestamp := 99 }))
  ∧ (SyncService.syncLoop stA [[entryA, entryB]] failNet 99 =
      (let f := SyncService.failBatch stA [entryA, entryB] "ECONNREFUSED" 99
       let r := SyncService.syncLoop f.1 [] failNet 99
       (r.1, r.2.1, f.2.1 + r.2.2.1, f.2.2 ++ r.2.2.2)))
  ∧ (∀ (st2 : DBState) (bs : Nat)
       (net2 : List SyncQueueItem → Except String BatchSyncResponse)
       (now2 : Int),
      ((SyncService.sync st2 bs net2 now2).1.success
          = ((SyncService.sync st2 bs net2 now2).1.failed_items == 0))
      ∧ (SyncService.sync st2 bs net2 now2).1.errors.length
          = (SyncService.sync st2 bs net2 now2).1.failed_items) :=
  sync_batch_level_failure stA [entryA, entryB] [] failNet 99 "ECONNREFUSED" rfl

/-- C10: a per-item result whose `client_id` matches no `task_id` in the
transmitted batch is silently skipped; a batch whose response lists no results
applies no outcome at all; and a run whose every batch returns empty
`processed_items` (the repository's own `/batch` stub) reports
`success = true` with zero synced and failed items while the database —
queue entries, retry counts and task statuses — is left exactly as it was. -/
theorem sync_unmatched_skipped (st : DBState) (batch : List SyncQueueItem)
    (p : ProcessedItem) (rest : List ProcessedItem) (now : Int)
    (hfind : batch.find? (fun b => b.task_id == p.client_id) = none) :
    (SyncService.applyItems st batch (p :: rest) now
       = SyncService.applyItems st batch rest now)
  ∧ (∀ b2 : List SyncQueueItem,
       SyncService.applyItems st b2 [] now = (st, 0, 0, [], none))
  ∧ (∀ bs : Nat,
       SyncService.sync st bs Routes.batchStub now
         = ({ success := true, synced_items := 0, failed_items := 0,
              errors := [] }, st)) := by
  refine ⟨?_, fun b2 => rfl, ?_⟩
  · simp only [SyncService.applyItems, hfind]
  · intro bs
    simp only [SyncService.sync, syncLoop_batchStub]
    rfl

/-- C8: a valid create yields a `pending` task and appends exactly one
`create` queue entry referencing it (exactly one entry for a fresh id); an
update or soft delete of an existing row sets the task `pending`, refreshes
`updated_at`, and appends one new queue entry to the end of the queue —
leaving every prior entry in place. -/
theorem taskService_mutation_queue :
    (∀ (st : DBState) (idv qid : String) (now : Int) (title : String)
       (desc : Option String) (comp : Option Bool),
      title ≠ "" →
      st.tasks.find? (fun t => t.id == idv) = none →
      st.sync_queue.countP (fun q => q.task_id == idv) = 0 →
      (∃ t, (TaskService.createTask st idv qid now (some title) desc comp
          none none).1 = Except.ok (some t)
        ∧ t.id = idv ∧ t.sync_status = SyncStatus.pending)
      ∧ (∃ entry, (TaskService.createTask st idv qid now (some title) desc comp
          none none).2.sync_queue = st.sync_queue ++ [entry]
        ∧ entry.operation = Op.create ∧ entry.task_id = idv)
      ∧ (TaskService.createTask st idv qid now (some title) desc comp
          none none).2.sync_queue.countP (fun q => q.task_id == idv) = 1)
  ∧ (∀ (st : DBState) (idv : String) (upd : TaskUpdates) (qid : String)
       (now : Int) (t0 : Task),
      st.tasks.find? (fun t => t.id == idv) = some t0 →
      (∃ entry, (TaskService.updateTask st idv upd qid now).2.sync_queue
          = st.sync_queue ++ [entry]
        ∧ entry.operation = Op.update ∧ entry.task_id = idv)
      ∧ (∀ t ∈ (TaskService.updateTask st idv upd qid now).2.tasks,
          t.id = idv → t.sync_status = SyncStatus.pending ∧ t.updated_at = now))
  ∧ (∀ (st : DBState) (idv qid : String) (now : Int) (t0 : Task),
      st.tasks.find? (fun t => t.id == idv) = some t0 →
      ((TaskService.deleteTask st idv qid now).1 = true)
      ∧ (∃ entry, (TaskService.deleteTask st idv qid now).2.sync_queue
          = st.sync_queue ++ [entry]
        ∧ entry.operation = Op.delete ∧ entry.task_id = idv)
      ∧ (∀ t ∈ (TaskService.deleteTask st idv qid now).2.tasks,
          t.id = idv → t.sync_status = SyncStatus.pending
            ∧ t.is_deleted = true ∧ t.updated_at = now)) := by
  refine ⟨?_, ?_, ?_⟩
  · intro st idv qid now title desc comp hT hft hcq
    simp only [TaskService.createTask, if_neg hT]
    refine ⟨⟨{ id := idv, title := title, description := desc,
               completed := comp.getD false, created_at := now,
               updated_at := now, is_deleted := false,
               sync_status := SyncStatus.pending, server_id := none,
               last_synced_at := none }, ?_, rfl, rfl⟩,
            ⟨_, rfl, rfl, rfl⟩, ?_⟩
    · simp [TaskService.getTask, List.find?_append, hft]
    · simp [List.countP_append, hcq, List.countP_cons]
  · intro st idv upd qid now t0 hft
    simp only [TaskService.updateTask, hft]
    refine ⟨⟨_, rfl, rfl, rfl⟩, ?_⟩
    intro t ht hid
    rcases List.mem_map.1 ht with ⟨u, _hu, rfl⟩
    by_cases hb : u.id = idv
    · refine ⟨?_, ?_⟩ <;> simp [hb]
    · have hbf : (u.id == idv) = false := beq_eq_false_iff_ne.2 hb
      rw [hbf] at hid
      simp only [Bool.false_eq_true, if_false] at hid
      exact absurd hid hb
  · intro st idv qid now t0 hft
    simp only [TaskService.deleteTask, hft]
    refine ⟨by trivial, ⟨_, rfl, rfl, rfl⟩, ?_⟩
    intro t ht hid
    rcases List.mem_map.1 ht with ⟨u, _hu, rfl⟩
    by_cases hb : u.id = idv
    · refine ⟨?_, ?_, ?_⟩ <;> simp [hb]
    · have hbf : (u.id == idv) = false := beq_eq_false_iff_ne.2 hb
      rw [hbf] at hid
      simp only [Bool.false_eq_true, if_false] at hid
      exact absurd hid hb

/-- An update payload used by witnesses. -/
def updW : TaskUpdates :=
  { title := some "Buy oat milk", description := none, completed := some true }

/-- Witness for C8: creating `Buy milk` in the empty store, then updating and
soft-deleting the existing task `t1` of `stA`. -/
theorem taskService_mutation_queue_witness :
    ((∃ t, (TaskService.createTask dbEmpty "t1" "q1" 0 (some "Buy milk") none
        none none none).1 = Except.ok (some t)
      ∧ t.id = "t1" ∧ t.sync_status = SyncStatus.pending)
    ∧ (∃ entry, (TaskService.createTask dbEmpty "t1" "q1" 0 (some "Buy milk")
        none none none none).2.sync_queue = dbEmpty.sync_queue ++ [entry]
      ∧ entry.operation = Op.create ∧ entry.task_id = "t1")
    ∧ (TaskService.createTask dbEmpty "t1" "q1" 0 (some "Buy milk") none none
        none none).2.sync_queue.countP (fun q => q.task_id == "t1") = 1)
  ∧ ((∃ entry, (TaskService.updateTask stA "t1" updW "q9" 50).2.sync_queue
        = stA.sync_queue ++ [entry]
      ∧ entry.operation = Op.update ∧ entry.task_id = "t1")
    ∧ (∀ t ∈ (TaskService.updateTask stA "t1" updW "q9" 50).2.tasks,
        t.id = "t1" → t.sync_status = SyncStatus.pending ∧ t.updated_at = 50))
  ∧ (((TaskService.deleteTask stA "t1" "q9" 50).1 = true)
    ∧ (∃ entry, (TaskService.deleteTask stA "t1" "q9" 50).2.sync_queue
        = stA.sync_queue ++ [entry]
      ∧ entry.operation = Op.delete ∧ entry.task_id = "t1")
    ∧ (∀ t ∈ (TaskService.deleteTask stA "t1" "q9" 50).2.tasks,
        t.id = "t1" → t.sync_status = SyncStatus.pending
          ∧ t.is_deleted = true ∧ t.updated_at = 50)) :=
  ⟨taskService_mutation_queue.1 dbEmpty "t1" "q1" 0 "Buy milk" none none
      (by decide) rfl rfl,
   taskService_mutation_queue.2.1 stA "t1" updW "q9" 50 taskA rfl,
   taskService_mutation_queue.2.2 stA "t1" "q9" 50 taskA rfl⟩

/-- `find?` by id commutes with mapping an id-preserving row update. -/
theorem find?_id_map (f : Task → Task) (hf : ∀ t, (f t).id = t.id)
    (idv : String) :
    ∀ l : List Task, (l.map f).find? (fun t => t.id == idv)
      = (l.find? (fun t => t.id == idv)).map f := by
  intro l
  induction l with
  | nil => rfl
  | cons x xs ih =>
    simp only [List.map_cons, List.find?_cons, hf x]
    cases hx : (x.id == idv) with
    | true => simp
    | false => simpa using ih

/-- C9 counterexample: task `t1` of `stDeleted` is soft-deleted, yet
`deleteTask` does not surface NotFound without mutation: it returns `true` and
appends a queue entry. -/
theorem deleteTask_on_deleted_counterexample :
    ¬ ((TaskService.deleteTask stDeleted "t1" "q2" 5).1 = false
       ∧ (TaskService.deleteTask stDeleted "t1" "q2" 5).2 = stDeleted) := by
  decide

/-- C9 (amended): for an absent task id, `get`, `update` and `softDelete`
surface NotFound (null / null / false) and perform no mutation; for a
soft-deleted id, `get` returns null, but `update` and `softDelete` treat the
row as existing — `update` mutates it and appends a queue entry while still
returning null (its final read filters deleted rows), and `softDelete`
returns true, re-marks the row, and appends a delete queue entry. -/
theorem taskService_notfound_amended (st : DBState) (idv : String)
    (upd : TaskUpdates) (qid : String) (now : Int) :
    (st.tasks.find? (fun t => t.id == idv) = none →
       TaskService.getTask st idv = none
     ∧ TaskService.updateTask st idv upd qid now = (none, st)
     ∧ TaskService.deleteTask st idv qid now = (false, st))
  ∧ (∀ t0, st.tasks.find? (fun t => t.id == idv) = some t0 →
       t0.is_deleted = true →
       TaskService.getTask st idv = none
     ∧ (TaskService.updateTask st idv upd qid now).1 = none
     ∧ (∀ t ∈ (TaskService.updateTask st idv upd qid now).2.tasks,
         t.id = idv → t.sync_status = SyncStatus.pending ∧ t.updated_at = now)
     ∧ (∃ entry, (TaskService.updateTask st idv upd qid now).2.sync_queue
         = st.sync_queue ++ [entry]
       ∧ entry.operation = Op.update ∧ entry.task_id = idv)
     ∧ (TaskService.deleteTask st idv qid now).1 = true
     ∧ (∀ t ∈ (TaskService.deleteTask st idv qid now).2.tasks,
         t.id = idv → t.is_deleted = true ∧ t.sync_status = SyncStatus.pending
           ∧ t.updated_at = now)
     ∧ (∃ entry, (TaskService.deleteTask st idv qid now).2.sync_queue
         = st.sync_queue ++ [entry]
       ∧ entry.operation = Op.delete ∧ entry.task_id = idv)) := by
  constructor
  · intro hfind
    refine ⟨?_, ?_, ?_⟩ <;>
      simp [TaskService.getTask, TaskService.updateTask,
        TaskService.deleteTask, hfind]
  · intro t0 hft hdel
    have hpt0 : (t0.id == idv) = true := by
      simpa using List.find?_some hft
    refine ⟨?_, ?_, ?_, ?_, ?_, ?_, ?_⟩
    · simp [TaskService.getTask, hft, hdel]
    · simp only [TaskService.updateTask, hft, TaskService.getTask]
      rw [find?_id_map _
        (by intro t; by_cases h : (t.id == idv) = true <;> simp [h]) idv,
        hft]
      simp [hpt0, hdel]
      split <;> simp [hdel]
    · simp only [TaskService.updateTask, hft]
      intro t ht hid
      rcases List.mem_map.1 ht with ⟨u, _hu, rfl⟩
      by_cases hb : u.id = idv
      · refine ⟨?_, ?_⟩ <;> simp [hb]
      · have hbf : (u.id == idv) = false := beq_eq_false_iff_ne.2 hb
        rw [hbf] at hid
        simp only [Bool.false_eq_true, if_false] at hid
        exact absurd hid hb
    · simp only [TaskService.updateTask, hft]
      exact ⟨_, rfl, rfl, rfl⟩
    · simp [TaskService.deleteTask, hft]
    · simp only [TaskService.deleteTask, hft]
      intro t ht hid
      rcases List.mem_map.1 ht with ⟨u, _hu, rfl⟩
      by_cases hb : u.id = idv
      · refine ⟨?_, ?_, ?_⟩ <;> simp [hb]
      · have hbf : (u.id == idv) = false := beq_eq_false_iff_ne.2 hb
        rw [hbf] at hid
        simp only [Bool.false_eq_true, if_false] at hid
        exact absurd hid hb
    · simp only [TaskService.deleteTask, hft]
      exact ⟨_, rfl, rfl, rfl⟩

/-- Witness for C9 (amended): the soft-deleted task `t1` of `stDeleted` is
invisible to `get`, yet `update` appends a queue entry (returning null) and
`softDelete` reports `true` and appends another entry. -/
theorem taskService_notfound_amended_witness :
    TaskService.getTask stDeleted "t1" = none
  ∧ (TaskService.updateTask stDeleted "t1" updW "q9" 5).1 = none
  ∧ (∀ t ∈ (TaskService.updateTask stDeleted "t1" updW "q9" 5).2.tasks,
      t.id = "t1" → t.sync_status = SyncStatus.pending ∧ t.updated_at = 5)
  ∧ (∃ entry, (TaskService.updateTask stDeleted "t1" updW "q9" 5).2.sync_queue
      = stDeleted.sync_queue ++ [entry]
    ∧ entry.operation = Op.update ∧ entry.task_id = "t1")
  ∧ (TaskService.deleteTask stDeleted "t1" "q9" 5).1 = true
  ∧ (∀ t ∈ (TaskService.deleteTask stDeleted "t1" "q9" 5).2.tasks,
      t.id = "t1" → t.is_deleted = true ∧ t.sync_status = SyncStatus.pending
        ∧ t.updated_at = 5)
  ∧ (∃ entry, (TaskService.deleteTask stDeleted "t1" "q9" 5).2.sync_queue
      = stDeleted.sync_queue ++ [entry]
    ∧ entry.operation = Op.delete ∧ entry.task_id = "t1") :=
  (taskService_notfound_amended stDeleted "t1" updW "q9" 5).2
    { taskA with is_deleted := true } rfl rfl

/-- A per-item result referencing a task absent from the batch. -/
def strayItem : ProcessedItem :=
  { client_id := "t-unknown", status := ItemStatus.success,
    server_id := none, resolved_data := none, error := none }

/-- Witness for C10: a result for unknown task `t-unknown` against the batch
`[entryA]` is skipped, and the stub network leaves the database `stA`
untouched with an all-zero successful summary. -/
theorem sync_unmatched_skipped_witness :
    (SyncService.applyItems stA [entryA] [strayItem] 99
       = SyncService.applyItems stA [entryA] [] 99)
  ∧ (∀ b2 : List SyncQueueItem,
       SyncService.applyItems stA b2 [] 99 = (stA, 0, 0, [], none))
  ∧ (∀ bs : Nat,
       SyncService.sync stA bs Routes.batchStub 99
         = ({ success := true, synced_items := 0, failed_items := 0,
              errors := [] }, stA)) :=
  sync_unmatched_skipped stA [entryA] strayItem [] 99 rfl

/-- C5: when the connectivity probe reports the remote unreachable, the
`POST /sync` handler returns the 503 `Server unreachable` outcome and the
database (task store and sync queue) is exactly the input state: zero
writes. -/
theorem postSync_offline_no_writes (st : DBState) (batchSize : Nat)
    (net : List SyncQueueItem → Except String BatchSyncResponse) (now : Int) :
    Routes.postSync st false batchSize net now
      = (Routes.SyncRouteResponse.unreachable, st) := by
  simp [Routes.postSync]

end TaskSync
